import Mathlib

/-!
Verification development for the Zen-Writer repository: a shallow embedding
of the draft persistence, the remote-suggestion service wrappers, the
suggestion orchestration handlers, the caret tracker, the font-size stepping
and the UI-visibility controller, with theorems settling the specification
claims about them.
-/

namespace ZenWriter

/-- Embeds the AppStatus enumeration of src/unnamed/part_000. -/
inductive AppStatus where
  | IDLE
  | WRITING
  | AI_THINKING
deriving DecidableEq, Repr

/-! ## Persistent draft store

The App component reads the two keys zen-writer-content and zen-writer-title
at startup with JavaScript truthiness fallbacks (getItem(k) || default), and a
useEffect writes both keys on every content or title change. -/

/-- Embeds the local key-value store holding the two draft keys; a key that
was never written is absent (getItem returns null). -/
structure Store where
  contentKey : Option String
  titleKey : Option String
deriving DecidableEq, Repr

/-- Embeds the JavaScript expression (v || fallback) applied to a getItem
result: null and the empty string are falsy, any other string is returned. -/
def jsOr (v : Option String) (fallback : String) : String :=
  match v with
  | none => fallback
  | some s => if s = "" then fallback else s

/-- Embeds the useEffect at src/unnamed/part_001 lines 62-66: both keys are
written (whole-value overwrite) on every change. -/
def persist (st : Store) (content title : String) : Store :=
  { st with contentKey := some content, titleKey := some title }

/-- Embeds the content useState initializer at src/unnamed/part_001 line 48:
localStorage.getItem ZW-content or the empty string. -/
def loadContent (st : Store) : String :=
  jsOr st.contentKey ""

/-- Embeds the title useState initializer at src/unnamed/part_001 line 49:
localStorage.getItem ZW-title or the default title. -/
def loadTitle (st : Store) : String :=
  jsOr st.titleKey "雨夜随笔"

/-! ## Font-size stepping

The two header buttons at src/unnamed/part_001 lines 246-256 step the font
size by 2 with Math.max(16, f - 2) and Math.min(42, f + 2); the initial state
at line 54 is 20. -/

/-- A press of one of the two font-size step buttons. -/
inductive FontStep where
  | decrease
  | increase
deriving DecidableEq, Repr

/-- Embeds the onClick handlers of the font-size buttons at src/unnamed/
part_001 lines 248 and 253. -/
def fontStep (f : ℤ) : FontStep → ℤ
  | FontStep.decrease => max 16 (f - 2)
  | FontStep.increase => min 42 (f + 2)

/-- Embeds the fontSize useState initializer at src/unnamed/part_001
line 54. -/
def initialFontSize : ℤ := 20

/-- Runs a sequence of font-size button presses from the initial state. -/
def runFontSteps (steps : List FontStep) : ℤ :=
  steps.foldl fontStep initialFontSize

theorem fontStep_mem (f : ℤ) (s : FontStep) (h1 : 16 ≤ f) (h2 : f ≤ 42) :
    16 ≤ fontStep f s ∧ fontStep f s ≤ 42 := by
  cases s <;> simp [fontStep] <;> omega

theorem runFontSteps_mem (steps : List FontStep) :
    16 ≤ runFontSteps steps ∧ runFontSteps steps ≤ 42 := by
  have key : ∀ (l : List FontStep) (f : ℤ), 16 ≤ f → f ≤ 42 →
      16 ≤ l.foldl fontStep f ∧ l.foldl fontStep f ≤ 42 := by
    intro l
    induction l with
    | nil => intro f h1 h2; exact ⟨h1, h2⟩
    | cons s tl ih =>
      intro f h1 h2
      have h := fontStep_mem f s h1 h2
      exact ih (fontStep f s) h.1 h.2
  exact key steps initialFontSize (by decide) (by decide)

/-- C8: starting from the initial font size 20, the font size stays in
[16, 42] after every sequence of increase/decrease button presses; a decrease
requested at the minimum 16 leaves it at 16, and an increase requested at the
maximum 42 leaves it at 42. -/
theorem fontSize_bounds :
    (∀ steps : List FontStep,
        16 ≤ runFontSteps steps ∧ runFontSteps steps ≤ 42) ∧
    fontStep 16 FontStep.decrease = 16 ∧
    fontStep 42 FontStep.increase = 42 := by
  refine ⟨runFontSteps_mem, ?_, ?_⟩ <;> decide

/-- Witness for fontSize_bounds on a concrete button-press sequence. -/
theorem fontSize_bounds_witness :
    16 ≤ runFontSteps [FontStep.decrease, FontStep.decrease] ∧
    runFontSteps [FontStep.decrease, FontStep.decrease] ≤ 42 :=
  fontSize_bounds.1 [FontStep.decrease, FontStep.decrease]

/-- C2 counterexample: persisting the empty title and reloading yields the
default title, not the empty string, so the round-trip fails at title = "". -/
theorem persist_roundtrip_cex :
    loadTitle (persist ⟨none, none⟩ "hello" "") = "雨夜随笔" ∧
    ("雨夜随笔" : String) ≠ "" := by
  constructor
  · rfl
  · decide

/-- C2 (amended): for every content string and every non-empty title string,
persisting both and reloading yields exactly the same content and title. -/
theorem persist_roundtrip (st : Store) (content title : String)
    (h : title ≠ "") :
    loadContent (persist st content title) = content ∧
    loadTitle (persist st content title) = title := by
  constructor
  · simp only [loadContent, persist, jsOr]
    split <;> simp_all
  · simp only [loadTitle, persist, jsOr]
    split <;> simp_all

/-- Witness for persist_roundtrip at a concrete store, content and title. -/
theorem persist_roundtrip_witness :
    loadContent (persist ⟨none, none⟩ "rain" "night") = "rain" ∧
    loadTitle (persist ⟨none, none⟩ "rain" "night") = "night" :=
  persist_roundtrip ⟨none, none⟩ "rain" "night" (by decide)

/-! ## Remote suggestion service (src/services/geminiService.ts)

Each call to ai.models.generateContent either throws (caught by the
surrounding try/catch) or resolves with a response whose text field is a
possibly absent string. Both wrapper functions are total: every outcome is
converted to a string, and nothing is thrown further. -/

/-- Embeds the JavaScript String.prototype.trim used by the source (content
.trim() guards and response.text?.trim()): drop whitespace characters from
both ends of the character sequence. -/
def jsTrim (s : String) : String :=
  ⟨((s.data.dropWhile Char.isWhitespace).reverse.dropWhile
      Char.isWhitespace).reverse⟩

/-- Outcome of one generateContent call: the transport fails (the awaited
promise rejects, caught by the try/catch), or it resolves with an optional
response text. -/
inductive RemoteOutcome where
  | fail
  | ok (text : Option String)
deriving DecidableEq, Repr

/-- Embeds getAiSuggestion (src/services/geminiService.ts lines 8-31): on
failure the fixed error fallback; on success the JavaScript expression
(response.text || silent-fallback), where an absent or empty text is
falsy. -/
def getAiSuggestion (context : String) (o : RemoteOutcome) : String :=
  match o with
  | RemoteOutcome.fail => "Error connecting to the AI Muse."
  | RemoteOutcome.ok none => "The muse is silent today..."
  | RemoteOutcome.ok (some s) =>
      if s = "" then "The muse is silent today..." else s

/-- Embeds suggestTitle (src/services/geminiService.ts lines 37-55): on
failure the fixed title fallback; on success the JavaScript expression
(response.text?.trim() || fallback), so the text is trimmed before the
emptiness check and an absent text falls through to the fallback. -/
def suggestTitle (content : String) (o : RemoteOutcome) : String :=
  match o with
  | RemoteOutcome.fail => "Untitled Story"
  | RemoteOutcome.ok t =>
      if jsTrim (t.getD "") = "" then "Untitled Story" else jsTrim (t.getD "")

/-- C10: both service wrappers are total by construction (every RemoteOutcome
is mapped to a string, nothing propagates) and always return a non-empty
string; an empty or absent response text yields the silent-muse fallback for
continuation (distinct from its error fallback) and the Untitled Story
fallback for titles (identical to its error fallback); the title text is
trimmed before the emptiness check. -/
theorem service_total_nonempty (context : String) (o : RemoteOutcome) :
    getAiSuggestion context o ≠ "" ∧
    suggestTitle context o ≠ "" ∧
    getAiSuggestion context (RemoteOutcome.ok none) =
      "The muse is silent today..." ∧
    getAiSuggestion context (RemoteOutcome.ok (some "")) =
      "The muse is silent today..." ∧
    getAiSuggestion context RemoteOutcome.fail =
      "Error connecting to the AI Muse." ∧
    ("The muse is silent today..." : String) ≠
      "Error connecting to the AI Muse." ∧
    suggestTitle context (RemoteOutcome.ok none) = "Untitled Story" ∧
    suggestTitle context RemoteOutcome.fail = "Untitled Story" ∧
    (∀ t : String, suggestTitle context (RemoteOutcome.ok (some t)) =
      if jsTrim t = "" then "Untitled Story" else jsTrim t) := by
  refine ⟨?_, ?_, rfl, by simp [getAiSuggestion], rfl, by decide,
    by simp only [suggestTitle]; decide, rfl, ?_⟩
  · cases o with
    | fail => simp only [getAiSuggestion]; decide
    | ok t =>
      cases t with
      | none => simp only [getAiSuggestion]; decide
      | some s =>
        simp only [getAiSuggestion]
        split
        · decide
        · assumption
  · cases o with
    | fail => simp only [suggestTitle]; decide
    | ok t =>
      simp only [suggestTitle]
      split
      · decide
      · assumption
  · intro t
    simp [suggestTitle]

/-- Witness for service_total_nonempty at a concrete context and outcome. -/
theorem service_total_nonempty_witness :
    getAiSuggestion "ctx" (RemoteOutcome.ok (some "words")) ≠ "" ∧
    suggestTitle "ctx" (RemoteOutcome.ok (some "words")) ≠ "" :=
  ⟨(service_total_nonempty "ctx" (RemoteOutcome.ok (some "words"))).1,
   (service_total_nonempty "ctx" (RemoteOutcome.ok (some "words"))).2.1⟩

/-! ## Suggestion orchestration (src/unnamed/part_001)

The two async handlers handleAiMuse and handleSuggestTitle are split at their
await points: a click event runs the handler up to the outbound call, and a
resolution event runs the remainder. The AI Muse button carries
disabled = (status equals AI_THINKING); the suggest-title button at lines
287-293 carries no disabled prop, so its handler runs on every click. -/

/-- One outstanding remote suggestion call. -/
inductive PendingCall where
  | museCall
  | titleCall
deriving DecidableEq, Repr

/-- Orchestration state: the draft fields, the AppStatus flag, the multiset
of in-flight remote calls, and a counter of outbound calls started. -/
structure MuseState where
  content : String
  title : String
  status : AppStatus
  pending : List PendingCall
  callsStarted : Nat
deriving DecidableEq, Repr

/-- Embeds handleAiMuse (src/unnamed/part_001 lines 152-155) up to the await:
the whitespace-only guard, then status := AI_THINKING and the outbound
getAiSuggestion call is started. -/
def startAiMuse (s : MuseState) : MuseState :=
  if jsTrim s.content = "" then s
  else { s with status := AppStatus.AI_THINKING,
                pending := PendingCall.museCall :: s.pending,
                callsStarted := s.callsStarted + 1 }

/-- A click on the AI Muse button (src/unnamed/part_001 lines 258-265): the
button is disabled while status = AI_THINKING, so the handler only runs
otherwise. -/
def clickAiMuse (s : MuseState) : MuseState :=
  if s.status = AppStatus.AI_THINKING then s else startAiMuse s

/-- Embeds handleSuggestTitle (src/unnamed/part_001 lines 168-170) up to the
await: the whitespace-only guard, then status := AI_THINKING and the outbound
suggestTitle call is started. -/
def startSuggestTitle (s : MuseState) : MuseState :=
  if jsTrim s.content = "" then s
  else { s with status := AppStatus.AI_THINKING,
                pending := PendingCall.titleCall :: s.pending,
                callsStarted := s.callsStarted + 1 }

/-- A click on the suggest-title button (src/unnamed/part_001 lines 287-293):
the button has no disabled prop, so the handler runs on every click. -/
def clickSuggestTitle (s : MuseState) : MuseState :=
  startSuggestTitle s

/-- Embeds the remainder of handleAiMuse after the await (src/unnamed/
part_001 lines 156-157): the functional content update appends the returned
suggestion after a blank-line separator, then status := IDLE. -/
def resolveMuse (s : MuseState) (o : RemoteOutcome) : MuseState :=
  if PendingCall.museCall ∈ s.pending then
    { s with content := s.content ++ "\n\n" ++ getAiSuggestion s.content o,
             status := AppStatus.IDLE,
             pending := s.pending.erase PendingCall.museCall }
  else s

/-- Embeds the remainder of handleSuggestTitle after the await (src/unnamed/
part_001 lines 172-173): the title is replaced by the returned string, then
status := IDLE. -/
def resolveTitle (s : MuseState) (o : RemoteOutcome) : MuseState :=
  if PendingCall.titleCall ∈ s.pending then
    { s with title := suggestTitle s.content o,
             status := AppStatus.IDLE,
             pending := s.pending.erase PendingCall.titleCall }
  else s

/-- Embeds handleClear (src/unnamed/part_001 lines 186-192): on a confirmed
window.confirm dialog the content is reset to the empty string and the title
to the fixed 新篇章; on decline nothing runs. -/
def handleClear (s : MuseState) (confirmed : Bool) : MuseState :=
  if confirmed then { s with content := "", title := "新篇章" } else s

/-- C1 counterexample: from the reachable state obtained by one suggest-title
click on a non-empty draft (status = AI_THINKING, one call outstanding), a
second suggest-title trigger starts a second outbound call and changes the
state, because the suggest-title button carries no disabled prop. -/
theorem singleFlight_cex :
    (clickSuggestTitle ⟨"x", "t", AppStatus.IDLE, [], 0⟩).status
        = AppStatus.AI_THINKING ∧
    (clickSuggestTitle ⟨"x", "t", AppStatus.IDLE, [], 0⟩).callsStarted = 1 ∧
    MuseState.callsStarted
      (clickSuggestTitle
        (clickSuggestTitle ⟨"x", "t", AppStatus.IDLE, [], 0⟩)) = 2 := by
  refine ⟨?_, ?_, ?_⟩ <;> decide

/-- C1 (amended): while AppStatus = AI_THINKING the continue-text control is
disabled, so triggering it again has no observable effect at all; the
suggest-title control is not disabled, and triggering it with a non-empty
draft while a call is outstanding starts one additional outbound call. -/
theorem singleFlight_amended :
    (∀ s : MuseState, s.status = AppStatus.AI_THINKING → clickAiMuse s = s) ∧
    (∀ s : MuseState, s.status = AppStatus.AI_THINKING →
      jsTrim s.content ≠ "" →
      (clickSuggestTitle s).callsStarted = s.callsStarted + 1) := by
  constructor
  · intro s h
    simp [clickAiMuse, h]
  · intro s _ hc
    simp [clickSuggestTitle, startSuggestTitle, hc]

/-- Witness for singleFlight_amended at a concrete mid-flight state. -/
theorem singleFlight_amended_witness :
    clickAiMuse ⟨"x", "t", AppStatus.AI_THINKING, [PendingCall.titleCall], 1⟩
      = ⟨"x", "t", AppStatus.AI_THINKING, [PendingCall.titleCall], 1⟩ ∧
    MuseState.callsStarted
      (clickSuggestTitle
        ⟨"x", "t", AppStatus.AI_THINKING, [PendingCall.titleCall], 1⟩)
      = 1 + 1 :=
  ⟨singleFlight_amended.1
      ⟨"x", "t", AppStatus.AI_THINKING, [PendingCall.titleCall], 1⟩ rfl,
   singleFlight_amended.2
      ⟨"x", "t", AppStatus.AI_THINKING, [PendingCall.titleCall], 1⟩ rfl
      (by decide)⟩

/-- C5: on a draft whose content is empty or whitespace-only, both suggestion
triggers leave the state exactly unchanged: no outbound call is started, the
content, title and AppStatus are untouched. -/
theorem emptyContent_guard (s : MuseState) (h : jsTrim s.content = "") :
    clickAiMuse s = s ∧ clickSuggestTitle s = s := by
  constructor
  · simp [clickAiMuse, startAiMuse, h]
  · simp [clickSuggestTitle, startSuggestTitle, h]

/-- Witness for emptyContent_guard at a whitespace-only draft. -/
theorem emptyContent_guard_witness :
    clickAiMuse ⟨" \n ", "t", AppStatus.IDLE, [], 0⟩
        = ⟨" \n ", "t", AppStatus.IDLE, [], 0⟩ ∧
    clickSuggestTitle ⟨" \n ", "t", AppStatus.IDLE, [], 0⟩
        = ⟨" \n ", "t", AppStatus.IDLE, [], 0⟩ :=
  emptyContent_guard ⟨" \n ", "t", AppStatus.IDLE, [], 0⟩ (by decide)

/-- C4: a continuation trigger on a non-empty idle draft whose remote call
fails appends the fixed error fallback as ordinary content (the rejection is
absorbed by the try/catch and the wrapper returns a string) and ends with
AppStatus = IDLE and no outstanding call. -/
theorem failure_fallback (s : MuseState)
    (h : jsTrim s.content ≠ "") (h2 : s.status ≠ AppStatus.AI_THINKING) :
    (resolveMuse (clickAiMuse s) RemoteOutcome.fail).content
        = s.content ++ "\n\n" ++ "Error connecting to the AI Muse." ∧
    (resolveMuse (clickAiMuse s) RemoteOutcome.fail).status
        = AppStatus.IDLE ∧
    (resolveMuse (clickAiMuse s) RemoteOutcome.fail).pending = s.pending := by
  have hclick : clickAiMuse s =
      { s with status := AppStatus.AI_THINKING,
               pending := PendingCall.museCall :: s.pending,
               callsStarted := s.callsStarted + 1 } := by
    simp [clickAiMuse, h2, startAiMuse, h]
  rw [hclick]
  simp [resolveMuse, getAiSuggestion]

/-- Witness for failure_fallback at a concrete draft. -/
theorem failure_fallback_witness :
    (resolveMuse (clickAiMuse ⟨"Once", "t", AppStatus.IDLE, [], 0⟩)
        RemoteOutcome.fail).content
      = "Once" ++ "\n\n" ++ "Error connecting to the AI Muse." ∧
    (resolveMuse (clickAiMuse ⟨"Once", "t", AppStatus.IDLE, [], 0⟩)
        RemoteOutcome.fail).status = AppStatus.IDLE ∧
    (resolveMuse (clickAiMuse ⟨"Once", "t", AppStatus.IDLE, [], 0⟩)
        RemoteOutcome.fail).pending = [] :=
  failure_fallback ⟨"Once", "t", AppStatus.IDLE, [], 0⟩ (by decide)
    (by decide)

/-- C7: on a non-empty idle draft, a completed continue-text call sets the
content to the old content, a blank-line separator and the returned
suggestion (so the old content is preserved as a prefix), while a completed
suggest-title call replaces the title outright with the returned string and
leaves the content unchanged; both end at AppStatus = IDLE. -/
theorem suggestion_application (s : MuseState) (o : RemoteOutcome)
    (h : jsTrim s.content ≠ "") (h2 : s.status ≠ AppStatus.AI_THINKING) :
    ((resolveMuse (clickAiMuse s) o).content
        = s.content ++ "\n\n" ++ getAiSuggestion s.content o ∧
     (∃ rest, (resolveMuse (clickAiMuse s) o).content = s.content ++ rest) ∧
     (resolveMuse (clickAiMuse s) o).status = AppStatus.IDLE) ∧
    ((resolveTitle (clickSuggestTitle s) o).title = suggestTitle s.content o ∧
     (resolveTitle (clickSuggestTitle s) o).content = s.content ∧
     (resolveTitle (clickSuggestTitle s) o).status = AppStatus.IDLE) := by
  have hclick : clickAiMuse s =
      { s with status := AppStatus.AI_THINKING,
               pending := PendingCall.museCall :: s.pending,
               callsStarted := s.callsStarted + 1 } := by
    simp [clickAiMuse, h2, startAiMuse, h]
  have htclick : clickSuggestTitle s =
      { s with status := AppStatus.AI_THINKING,
               pending := PendingCall.titleCall :: s.pending,
               callsStarted := s.callsStarted + 1 } := by
    simp [clickSuggestTitle, startSuggestTitle, h]
  rw [hclick, htclick]
  refine ⟨⟨?_, ?_, ?_⟩, ?_, ?_, ?_⟩ <;>
    simp [resolveMuse, resolveTitle]
  exact ⟨"\n\n" ++ getAiSuggestion s.content o, (String.append_assoc _ _ _)⟩

/-- Witness for suggestion_application at a concrete draft and outcome. -/
theorem suggestion_application_witness :
    ((resolveMuse (clickAiMuse ⟨"Once", "t", AppStatus.IDLE, [], 0⟩)
        (RemoteOutcome.ok (some "And then."))).content
      = "Once" ++ "\n\n"
          ++ getAiSuggestion "Once" (RemoteOutcome.ok (some "And then.")) ∧
     (∃ rest,
        (resolveMuse (clickAiMuse ⟨"Once", "t", AppStatus.IDLE, [], 0⟩)
          (RemoteOutcome.ok (some "And then."))).content = "Once" ++ rest) ∧
     (resolveMuse (clickAiMuse ⟨"Once", "t", AppStatus.IDLE, [], 0⟩)
        (RemoteOutcome.ok (some "And then."))).status = AppStatus.IDLE) ∧
    ((resolveTitle (clickSuggestTitle ⟨"Once", "t", AppStatus.IDLE, [], 0⟩)
        (RemoteOutcome.ok (some "And then."))).title
      = suggestTitle "Once" (RemoteOutcome.ok (some "And then.")) ∧
     (resolveTitle (clickSuggestTitle ⟨"Once", "t", AppStatus.IDLE, [], 0⟩)
        (RemoteOutcome.ok (some "And then."))).content = "Once" ∧
     (resolveTitle (clickSuggestTitle ⟨"Once", "t", AppStatus.IDLE, [], 0⟩)
        (RemoteOutcome.ok (some "And then."))).status = AppStatus.IDLE) :=
  suggestion_application ⟨"Once", "t", AppStatus.IDLE, [], 0⟩
    (RemoteOutcome.ok (some "And then.")) (by decide) (by decide)

/-- C6: on any draft with non-empty content and title, a confirmed clear
resets the content to the empty string and the title to the fixed 新篇章,
and a declined clear leaves the whole state exactly unchanged. -/
theorem clear_confirmation (s : MuseState)
    (h1 : s.content ≠ "") (h2 : s.title ≠ "") :
    (handleClear s true).content = "" ∧
    (handleClear s true).title = "新篇章" ∧
    handleClear s false = s :=
  ⟨rfl, rfl, rfl⟩

/-- Witness for clear_confirmation at a concrete draft. -/
theorem clear_confirmation_witness :
    (handleClear ⟨"x", "t", AppStatus.IDLE, [], 0⟩ true).content = "" ∧
    (handleClear ⟨"x", "t", AppStatus.IDLE, [], 0⟩ true).title = "新篇章" ∧
    handleClear ⟨"x", "t", AppStatus.IDLE, [], 0⟩ false
        = ⟨"x", "t", AppStatus.IDLE, [], 0⟩ :=
  clear_confirmation ⟨"x", "t", AppStatus.IDLE, [], 0⟩ (by decide) (by decide)

/-! ## Caret tracker (scrollCaretIntoView, src/unnamed/part_001 lines 95-118)

Pixel quantities are modelled as rationals. The line count is
value.substring(0, selectionEnd).split on newline, whose length equals the
number of newline characters in the prefix plus one. -/

/-- Embeds lines 100-101: the number of newline-delimited lines of the text
preceding the caret offset. -/
def lineCount (value : String) (selectionEnd : Nat) : Nat :=
  (value.data.take selectionEnd).count '\n' + 1

/-- Measurement inputs of scrollCaretIntoView: the computed line height, the
editor bounding-rectangle top, the current scroll offset and the viewport
height. -/
structure CaretEnv where
  lineHeight : ℚ
  editorTop : ℚ
  scrollY : ℚ
  viewportHeight : ℚ
deriving DecidableEq, Repr

/-- Embeds lines 105-107: the caret position in document coordinates. -/
def globalCaretY (value : String) (selectionEnd : Nat) (e : CaretEnv) : ℚ :=
  e.editorTop + e.scrollY + (lineCount value selectionEnd : ℚ) * e.lineHeight

/-- Embeds line 110: the comfort threshold at 75 percent of the viewport
below the current scroll top. -/
def lowerThreshold (e : CaretEnv) : ℚ :=
  e.scrollY + e.viewportHeight * (3 / 4)

/-- Embeds lines 112-117: the issued scroll target, or none when the caret
position does not exceed the threshold. -/
def scrollCaretIntoView (value : String) (selectionEnd : Nat) (e : CaretEnv) :
    Option ℚ :=
  if globalCaretY value selectionEnd e > lowerThreshold e then
    some (globalCaretY value selectionEnd e - e.viewportHeight * (1 / 2))
  else none

/-- C3: the caret document position equals the newline-derived line count
times the line height plus the editor top plus the scroll offset; a scroll is
issued if and only if that position exceeds the scroll offset plus
three-quarters of the viewport height; and an issued scroll target places the
caret at one half of the viewport height below the new scroll top. -/
theorem caret_follow (value : String) (selectionEnd : Nat) (e : CaretEnv) :
    globalCaretY value selectionEnd e
      = (((value.data.take selectionEnd).count '\n' + 1 : ℕ) : ℚ)
          * e.lineHeight + e.editorTop + e.scrollY ∧
    ((scrollCaretIntoView value selectionEnd e).isSome ↔
      globalCaretY value selectionEnd e
        > e.scrollY + (3 / 4) * e.viewportHeight) ∧
    (∀ t, scrollCaretIntoView value selectionEnd e = some t →
      globalCaretY value selectionEnd e - t
        = (1 / 2) * e.viewportHeight) := by
  refine ⟨?_, ?_, ?_⟩
  · simp only [globalCaretY, lineCount]
    push_cast
    ring
  · have hs : (scrollCaretIntoView value selectionEnd e).isSome = true ↔
        globalCaretY value selectionEnd e > lowerThreshold e := by
      simp only [scrollCaretIntoView]
      split <;> simp [*]
    rw [hs, lowerThreshold, mul_comm]
  · intro t ht
    simp only [scrollCaretIntoView] at ht
    split at ht
    · injection ht with h
      rw [← h]
      ring
    · exact absurd ht (by simp)

/-- Witness for caret_follow: with four lines of height 10, editor top 0,
scroll offset 0 and viewport height 20, a scroll to 30 is issued and the
caret lands half a viewport below it. -/
theorem caret_follow_witness :
    scrollCaretIntoView "a\nb\nc\nd" 7 ⟨10, 0, 0, 20⟩ = some 30 ∧
    globalCaretY "a\nb\nc\nd" 7 ⟨10, 0, 0, 20⟩ - 30 = (1 / 2) * (20 : ℚ) := by
  have hl : lineCount "a\nb\nc\nd" 7 = 4 := by decide
  have h : scrollCaretIntoView "a\nb\nc\nd" 7 ⟨10, 0, 0, 20⟩ = some 30 := by
    simp only [scrollCaretIntoView, globalCaretY, lowerThreshold, hl]
    norm_num
  exact ⟨h, (caret_follow "a\nb\nc\nd" 7 ⟨10, 0, 0, 20⟩).2.2 30 h⟩

/-! ## UI-visibility controller (src/unnamed/part_001 lines 126-150)

The single uiTimeoutRef timer slot is embedded as an Option: handleMouseMove
clears any pending timer and arms the 4000 ms timer, whose callback closure
captures the content at arming time and reads the typing ref at expiry;
handleContentChange sets the typing ref, updates the content, and while the
chrome is shown rearms the slot with the 2000 ms unconditional hide timer. -/

/-- The pending timer in the single uiTimeoutRef slot. -/
inductive HideTimer where
  | idle4 (capturedContent : String)
  | hide2
deriving DecidableEq, Repr

/-- State of the UI-visibility controller: the showUI flag, the isTypingRef
flag, the content and the at-most-one pending hide timer. -/
structure UIState where
  showUI : Bool
  isTyping : Bool
  content : String
  timer : Option HideTimer
deriving DecidableEq, Repr

/-- Initial state: chrome visible, not typing, no pending timer. -/
def initialUIState (c : String) : UIState :=
  { showUI := true, isTyping := false, content := c, timer := none }

/-- Events driving the controller: pointer movement, a content keystroke,
expiry of the pending timer, and the focus/blur/click handlers that only
write the typing ref. -/
inductive UIEvent where
  | mouseMove
  | contentChange (newValue : String)
  | timerExpire
  | focusChange (typing : Bool)
deriving DecidableEq, Repr

/-- Embeds handleMouseMove (lines 126-134), handleContentChange
(lines 136-150) restricted to its visibility effects, the two timer callback
bodies, and the typing-ref writers. -/
def uiStep (s : UIState) : UIEvent → UIState
  | UIEvent.mouseMove =>
      { s with showUI := true, timer := some (HideTimer.idle4 s.content) }
  | UIEvent.contentChange v =>
      if s.showUI then
        { s with isTyping := true, content := v,
                 timer := some HideTimer.hide2 }
      else { s with isTyping := true, content := v }
  | UIEvent.timerExpire =>
      match s.timer with
      | none => s
      | some (HideTimer.idle4 c) =>
          if s.isTyping = true ∨ 0 < c.length then
            { s with showUI := false, timer := none }
          else { s with timer := none }
      | some HideTimer.hide2 => { s with showUI := false, timer := none }
  | UIEvent.focusChange b => { s with isTyping := b }

/-- Runs the controller from the initial state over a list of events. -/
def uiRun (c : String) (es : List UIEvent) : UIState :=
  es.foldl uiStep (initialUIState c)

/-- Controller invariant: a pending timer implies visible chrome, and a
pending 4000 ms timer captured the current content. -/
def uiInv (s : UIState) : Prop :=
  (∀ t, s.timer = some t → s.showUI = true) ∧
  (∀ cc, s.timer = some (HideTimer.idle4 cc) → cc = s.content)

theorem uiStep_inv (s : UIState) (e : UIEvent) (h : uiInv s) :
    uiInv (uiStep s e) := by
  obtain ⟨h1, h2⟩ := h
  cases e with
  | mouseMove =>
    refine ⟨fun t ht => rfl, fun cc hcc => ?_⟩
    simp only [uiStep, Option.some.injEq, HideTimer.idle4.injEq] at hcc
    simp [uiStep, hcc]
  | contentChange v =>
    by_cases hsu : s.showUI = true
    · refine ⟨fun t ht => ?_, fun cc hcc => ?_⟩
      · simp [uiStep, hsu]
      · simp [uiStep, hsu] at hcc
    · refine ⟨fun t ht => ?_, fun cc hcc => ?_⟩
      · simp only [uiStep, if_neg hsu] at ht
        exact absurd (h1 t ht) hsu
      · simp only [uiStep, if_neg hsu] at hcc
        exact absurd (h1 _ hcc) hsu
  | timerExpire =>
    match hm : s.timer with
    | none =>
      have he : uiStep s UIEvent.timerExpire = s := by simp [uiStep, hm]
      rw [he]
      exact ⟨h1, h2⟩
    | some (HideTimer.idle4 c) =>
      by_cases hg : s.isTyping = true ∨ 0 < c.length
      · have he : uiStep s UIEvent.timerExpire
            = { s with showUI := false, timer := none } := by
          simp [uiStep, hm, hg]
        rw [he]
        exact ⟨fun t ht => by simp at ht, fun cc hcc => by simp at hcc⟩
      · have he : uiStep s UIEvent.timerExpire
            = { s with timer := none } := by
          simp [uiStep, hm, hg]
        rw [he]
        exact ⟨fun t ht => by simp at ht, fun cc hcc => by simp at hcc⟩
    | some HideTimer.hide2 =>
      have he : uiStep s UIEvent.timerExpire
          = { s with showUI := false, timer := none } := by
        simp [uiStep, hm]
      rw [he]
      exact ⟨fun t ht => by simp at ht, fun cc hcc => by simp at hcc⟩
  | focusChange b =>
    exact ⟨fun t ht => h1 t ht, fun cc hcc => h2 cc hcc⟩

theorem uiRun_inv (c : String) (es : List UIEvent) : uiInv (uiRun c es) := by
  have key : ∀ (l : List UIEvent) (s : UIState),
      uiInv s → uiInv (l.foldl uiStep s) := by
    intro l
    induction l with
    | nil => exact fun s hs => hs
    | cons e tl ih => exact fun s hs => ih _ (uiStep_inv s e hs)
  refine key es (initialUIState c) ⟨fun t ht => ?_, fun cc hcc => ?_⟩
  · simp [initialUIState] at ht
  · simp [initialUIState] at hcc

/-- C9: in every reachable controller state, a pointer movement makes the
chrome visible and arms the single 4000 ms timer slot (cancelling whatever
was pending, so at most one hide timer is ever pending); a content keystroke
while visible rearms the slot with the 2000 ms timer; expiry of the 2000 ms
timer hides the chrome unconditionally; expiry of the 4000 ms timer hides
the chrome exactly when the user is typing or the content is non-empty, and
otherwise leaves it visible; and any pending timer implies the chrome is
currently visible. -/
theorem ui_visibility (c : String) (es : List UIEvent) :
    (uiStep (uiRun c es) UIEvent.mouseMove).showUI = true ∧
    (uiStep (uiRun c es) UIEvent.mouseMove).timer
        = some (HideTimer.idle4 (uiRun c es).content) ∧
    (∀ v, (uiRun c es).showUI = true →
      (uiStep (uiRun c es) (UIEvent.contentChange v)).timer
          = some HideTimer.hide2) ∧
    ((uiRun c es).timer = some HideTimer.hide2 →
      (uiStep (uiRun c es) UIEvent.timerExpire).showUI = false) ∧
    (∀ cc, (uiRun c es).timer = some (HideTimer.idle4 cc) →
      ((uiStep (uiRun c es) UIEvent.timerExpire).showUI = false ↔
        ((uiRun c es).isTyping = true ∨ 0 < (uiRun c es).content.length)) ∧
      (¬((uiRun c es).isTyping = true ∨ 0 < (uiRun c es).content.length) →
        (uiStep (uiRun c es) UIEvent.timerExpire).showUI = true)) ∧
    (∀ t, (uiRun c es).timer = some t → (uiRun c es).showUI = true) := by
  have hinv := uiRun_inv c es
  refine ⟨rfl, rfl, ?_, ?_, ?_, hinv.1⟩
  · intro v hv
    simp [uiStep, hv]
  · intro ht
    simp [uiStep, ht]
  · intro cc hcc
    have hcontent : cc = (uiRun c es).content := hinv.2 cc hcc
    have hsu : (uiRun c es).showUI = true := hinv.1 _ hcc
    subst hcontent
    by_cases hg : (uiRun c es).isTyping = true ∨ 0 < (uiRun c es).content.length
    · constructor
      · simp [uiStep, hcc, hg]
      · exact fun hn => absurd hg hn
    · constructor
      · simp [uiStep, hcc, hg, hsu]
      · intro _
        simp [uiStep, hcc, hg, hsu]

/-- Witness for ui_visibility on concrete event traces: a keystroke while
visible arms the 2000 ms timer, its expiry hides the chrome, and the 4000 ms
expiry decision is evaluated after one pointer movement on a non-empty
draft. -/
theorem ui_visibility_witness :
    (uiStep (uiRun "" []) UIEvent.mouseMove).showUI = true ∧
    (uiStep (uiRun "" []) (UIEvent.contentChange "a")).timer
        = some HideTimer.hide2 ∧
    (uiStep (uiRun "" [UIEvent.mouseMove, UIEvent.contentChange "a"])
        UIEvent.timerExpire).showUI = false ∧
    ((uiStep (uiRun "x" [UIEvent.mouseMove]) UIEvent.timerExpire).showUI
        = false ↔
      ((uiRun "x" [UIEvent.mouseMove]).isTyping = true ∨
        0 < (uiRun "x" [UIEvent.mouseMove]).content.length)) := by
  refine ⟨(ui_visibility "" []).1, ?_, ?_, ?_⟩
  · exact (ui_visibility "" []).2.2.1 "a" rfl
  · have h4 := ui_visibility "" [UIEvent.mouseMove, UIEvent.contentChange "a"]
    exact h4.2.2.2.1 rfl
  · have h5 := ui_visibility "x" [UIEvent.mouseMove]
    exact (h5.2.2.2.2.1 "x" rfl).1

end ZenWriter
